import Mathlib

/-!
Shallow embedding of `src/sample/app/main.py` (a minimal Flask blog app):
credential validation (`LoginForm.validate`), login/logout/account handlers
with the `login_required` gate, the paginated `index` and `archive` listings
(flask-sqlalchemy 2.x `paginate(page, per_page, error_out=False)` semantics),
and the `initialize_data` bootstrap seeding.
-/

/-- Timestamps, modelling Python `datetime` values down to minute resolution.
Comparison is lexicographic, as in Python. -/
structure DateTime where
  year : Int
  month : Nat
  day : Nat
  hour : Nat
  minute : Nat
deriving DecidableEq, Repr

/-- Lexicographic strict comparison of datetimes (Python `<`). -/
def DateTime.ltb (a b : DateTime) : Bool :=
  decide (a.year < b.year) ||
    (decide (a.year = b.year) && (decide (a.month < b.month) ||
      (decide (a.month = b.month) && (decide (a.day < b.day) ||
        (decide (a.day = b.day) && (decide (a.hour < b.hour) ||
          (decide (a.hour = b.hour) && decide (a.minute < b.minute))))))))

/-- Lexicographic non-strict comparison of datetimes (Python `<=`). -/
def DateTime.leb (a b : DateTime) : Bool :=
  decide (a.year < b.year) ||
    (decide (a.year = b.year) && (decide (a.month < b.month) ||
      (decide (a.month = b.month) && (decide (a.day < b.day) ||
        (decide (a.day = b.day) && (decide (a.hour < b.hour) ||
          (decide (a.hour = b.hour) && decide (a.minute ≤ b.minute))))))))

/-- Gregorian leap-year test as in Python `calendar.isleap`. -/
def isLeap (y : Int) : Bool :=
  (y % 4 == 0 && y % 100 != 0) || y % 400 == 0

/-- Number of days in a month, as used by the `datetime` constructor checks. -/
def daysInMonth (y : Int) (m : Nat) : Nat :=
  if m = 2 then (if isLeap y then 29 else 28)
  else if m = 4 ∨ m = 6 ∨ m = 9 ∨ m = 11 then 30
  else 31

/-- Python `datetime(year, month, day)` constructor: validates the fields in
CPython order (year, then month, then day) and raises `ValueError` (modelled
as `.error`) when one is out of range. -/
def datetime (year : Int) (month day : Nat) : Except String DateTime :=
  if year < 1 ∨ 9999 < year then .error "year is out of range"
  else if month < 1 ∨ 12 < month then .error "month must be in 1..12"
  else if day < 1 ∨ daysInMonth year month < day then .error "day is out of range for month"
  else .ok ⟨year, month, day, 0, 0⟩

/-- Blog post record (`class Post` in the source). -/
structure Post where
  id : Nat
  title : String
  body : String
  pub_date : DateTime
  category_id : Option Nat
deriving DecidableEq, Repr

/-- User record (`class User` in the source). -/
structure User where
  id : Nat
  email : String
  password : String
deriving DecidableEq, Repr

/-- Source `User.check_password`: plaintext equality. -/
def User.check_password (u : User) (p : String) : Bool :=
  u.password == p

/-- Category record (`class Category` in the source). -/
structure Category where
  id : Nat
  name : String
deriving DecidableEq, Repr

/-- Descending-publish-date ordering used by `order_by(Post.pub_date.desc())`:
`a` comes before `b` when `b.pub_date <= a.pub_date`. -/
def postAfter (a b : Post) : Prop :=
  b.pub_date.leb a.pub_date = true

instance : DecidableRel postAfter :=
  fun a b => instDecidableEqBool (b.pub_date.leb a.pub_date) true

/-- The query `Post.query.order_by(Post.pub_date.desc())`, modelled as a stable
sort by descending publish date. -/
def order_by_pub_date_desc (l : List Post) : List Post :=
  List.insertionSort postAfter l

/-- Result of flask-sqlalchemy `paginate`: the `Pagination` object. -/
structure Pagination where
  page : Nat
  per_page : Nat
  total : Nat
  items : List Post
deriving DecidableEq, Repr

/-- flask-sqlalchemy 2.x `BaseQuery.paginate(page, per_page, error_out=False)`:
a page number below 1 is clamped to 1, then `items` is the slice
`offset (page-1)*per_page, limit per_page` of the query. -/
def paginate (q : List Post) (page : Int) (per_page : Nat) : Pagination :=
  let pg : Nat := if page < 1 then 1 else page.toNat
  { page := pg, per_page := per_page, total := q.length,
    items := (q.drop ((pg - 1) * per_page)).take per_page }

/-- Property `Pagination.pages`: total number of pages, `ceil(total / per_page)`. -/
def Pagination.pages (p : Pagination) : Nat :=
  if p.per_page = 0 then 0 else (p.total + p.per_page - 1) / p.per_page

/-- Property `Pagination.has_next`: further records exist beyond this page. -/
def Pagination.has_next (p : Pagination) : Bool :=
  decide (p.page < p.pages)

/-- Property `Pagination.has_prev`: records exist before this page. -/
def Pagination.has_prev (p : Pagination) : Bool :=
  decide (1 < p.page)

/-- Page locators produced by `url_for` in the handlers. -/
inductive Locator where
  | indexUrl : Nat → Locator
  | archiveUrl : Nat → Int → Nat → Locator
deriving DecidableEq, Repr

/-- Data a listing handler passes to `render_template('index.html', ...)`. -/
structure PageView where
  pagination : Pagination
  next_url : Option Locator
  prev_url : Option Locator
deriving DecidableEq, Repr

/-- Common shape of both listing handlers: paginate the query, then derive
`next_url` / `prev_url` from `has_next` / `has_prev`, with `url_for`
preserving the route's own arguments. -/
def listingView (q : List Post) (page : Int) (mkUrl : Nat → Locator) : PageView :=
  let posts := paginate q page 10
  { pagination := posts,
    next_url := if posts.has_next then some (mkUrl (posts.page + 1)) else none,
    prev_url := if posts.has_prev then some (mkUrl (posts.page - 1)) else none }

/-- The `index` route handler: paginates all posts by descending publish date
and derives `next_url` / `prev_url` from `has_next` / `has_prev`. -/
def index (stored : List Post) (page : Int) : PageView :=
  listingView (order_by_pub_date_desc stored) page Locator.indexUrl

/-- The `archive` route handler: builds the month boundaries with `datetime`
(December reuses the lower boundary as the upper one), filters posts with
`pub_date > minimum_month` and `pub_date <= maximum_month`, then paginates. -/
def archive (stored : List Post) (month : Nat) (year : Int) (page : Int) :
    Except String PageView :=
  match datetime year month 1 with
  | .error e => .error e
  | .ok minimum_month =>
    match if month == 12 then .ok minimum_month else datetime year (month + 1) 1 with
    | .error e => .error e
    | .ok maximum_month =>
      let filtered := stored.filter fun p =>
        minimum_month.ltb p.pub_date && p.pub_date.leb maximum_month
      .ok (listingView (order_by_pub_date_desc filtered) page (Locator.archiveUrl month year))

/-- sqlalchemy `Query.one_or_none` over the query
`User.query.filter_by(email=email)`: `none` on no match, the unique match
otherwise, and `MultipleResultsFound` when several rows match. -/
def one_or_none (users : List User) (email : String) : Except String (Option User) :=
  match users.filter (fun u => u.email == email) with
  | [] => .ok none
  | [u] => .ok (some u)
  | _ => .error "MultipleResultsFound"

/-- Python `str.strip()`: drop leading and trailing whitespace. -/
def pyStrip (s : String) : String :=
  ⟨((s.data.dropWhile Char.isWhitespace).reverse.dropWhile Char.isWhitespace).reverse⟩

/-- wtforms `DataRequired` failure condition on a string field: the data is
empty or whitespace-only (Python `not field.data or not field.data.strip()`). -/
def dataRequiredFails (s : String) : Bool :=
  pyStrip s == ""

/-- Observable outcome of `LoginForm.validate`: the returned boolean, the
bound `self.user`, and the per-field error lists. -/
structure LoginOutcome where
  ok : Bool
  user : Option User
  email_errors : List String
  password_errors : List String
deriving DecidableEq, Repr

/-- Source `LoginForm.validate` (the second definition, which overrides the
first): run the `DataRequired` field validators and return failure without
touching the store when one fails; otherwise look the email up with
`one_or_none`, succeed binding the user on a password match, and otherwise
append the generic message to the password field errors. The second component
counts persistence-layer queries performed. -/
def LoginForm.validate (users : List User) (email password : String) :
    Except String (LoginOutcome × Nat) :=
  if dataRequiredFails email || dataRequiredFails password then
    .ok ({ ok := false, user := none,
           email_errors := if dataRequiredFails email then ["This field is required."] else [],
           password_errors := if dataRequiredFails password then ["This field is required."] else [] }, 0)
  else
    match one_or_none users email with
    | .error e => .error e
    | .ok (some u) =>
      if u.check_password password then
        .ok ({ ok := true, user := some u, email_errors := [], password_errors := [] }, 1)
      else
        .ok ({ ok := false, user := none, email_errors := [],
               password_errors := ["Invalid email and/or password specified."] }, 1)
    | .ok none =>
      .ok ({ ok := false, user := none, email_errors := [],
             password_errors := ["Invalid email and/or password specified."] }, 1)

/-- Identity resolved for a request by flask-login: a bound user or anonymous. -/
inductive Identity where
  | anonymous : Identity
  | user : User → Identity
deriving DecidableEq, Repr

/-- Request context: the resolved identity, the requested URL, and the
optional `next` query argument. -/
structure RequestContext where
  ident : Identity
  url : String
  next_arg : Option String
deriving DecidableEq, Repr

/-- Handler results: a rendered template, a redirect, or the redirect to the
login view issued by `login_required`, carrying the original destination. -/
inductive Response where
  | render : String → Response
  | redirect : String → Response
  | redirectToLogin : String → Response
deriving DecidableEq, Repr

/-- flask-login `login_required` decorator: an anonymous identity is sent to
the login view with `next=request.url`; otherwise the wrapped handler runs. -/
def login_required (ctx : RequestContext) (op : RequestContext → Response) : Response :=
  match ctx.ident with
  | .anonymous => .redirectToLogin ctx.url
  | .user _ => op ctx

/-- Model of `url_for('index')`. -/
def indexUrlStr : String := "/"

/-- Python `a or b` over an optional string: falsy (absent or empty) falls
through to the default. -/
def pyOr (s : Option String) (dflt : String) : String :=
  match s with
  | some v => if v = "" then dflt else v
  | none => dflt

/-- The `logout` route handler: `login_required`, then redirect to
`request.args.get('next') or url_for('index')`. -/
def logout (ctx : RequestContext) : Response :=
  login_required ctx fun c => .redirect (pyOr c.next_arg indexUrlStr)

/-- The `account` route handler: `login_required`, then render the account
template. -/
def account (ctx : RequestContext) : Response :=
  login_required ctx fun _ => .render "account.html"

/-- The `login` route handler: on a submitted, valid form, bind the user and
redirect to `request.args.get('next') or url_for('index')`; otherwise render
the login template again. -/
def login (ctx : RequestContext) (users : List User) (email password : String)
    (submitted : Bool) : Except String Response :=
  if submitted then
    match LoginForm.validate users email password with
    | .error e => .error e
    | .ok (out, _) =>
      if out.ok then .ok (.redirect (pyOr ctx.next_arg indexUrlStr))
      else .ok (.render "login.html")
  else .ok (.render "login.html")

/-- Persistent store contents relevant to the bootstrap seeding. -/
structure DB where
  users : List User
  categories : List Category
deriving DecidableEq, Repr

/-- Source `initialize_data`: when no user with email `blogger@sample.com`
exists, a default user and a `Category(name='All')` object are constructed,
but only the user is passed to `session.add` before `commit`; the category
object is never added to the session, so it is not persisted. -/
def initialize_data (db : DB) : Except String DB :=
  match one_or_none db.users "blogger@sample.com" with
  | .error e => .error e
  | .ok (some _) => .ok db
  | .ok none =>
    let user : User :=
      { id := db.users.length + 1, email := "blogger@sample.com", password := "password" }
    let _category : Category := { id := db.categories.length + 1, name := "All" }
    .ok { db with users := db.users ++ [user] }

/-- Sample post published mid-March 2024, used in concrete witnesses. -/
def marchMid : Post := ⟨1, "a", "b", ⟨2024, 3, 15, 0, 0⟩, none⟩

/-- Sample post published exactly at the first instant of March 2024. -/
def marchStart : Post := ⟨2, "c", "d", ⟨2024, 3, 1, 0, 0⟩, none⟩

/-- Sample store for the archive witnesses. -/
def marchStore : List Post := [marchMid, marchStart]

/-- Sample post published in the `i`-th minute of 2024-05-01. -/
def postAt (i : Nat) : Post := ⟨i, "t", "body text!", ⟨2024, 5, 1, 0, i⟩, none⟩

/-- Sample store of exactly 25 posts with pairwise distinct publish times. -/
def twentyFivePosts : List Post := (List.range 25).map postAt

/-- Sample seeded user, as created by the bootstrap. -/
def blogger : User := ⟨1, "blogger@sample.com", "password"⟩

/-- Sample user store with unique emails, used in concrete witnesses. -/
def sampleUsers : List User := [blogger, ⟨2, "other@sample.com", "hunter2"⟩]

/-! Basic facts about `DateTime` comparisons. -/

theorem DateTime.leb_total (a b : DateTime) : a.leb b = true ∨ b.leb a = true := by
  cases a
  cases b
  simp only [DateTime.leb, Bool.or_eq_true, Bool.and_eq_true, decide_eq_true_eq]
  omega

theorem DateTime.leb_trans {a b c : DateTime} (h1 : a.leb b = true) (h2 : b.leb c = true) :
    a.leb c = true := by
  cases a
  cases b
  cases c
  simp only [DateTime.leb, Bool.or_eq_true, Bool.and_eq_true, decide_eq_true_eq] at h1 h2 ⊢
  omega

theorem DateTime.not_leb_of_ltb {a b : DateTime} (h : a.ltb b = true) :
    ¬ (b.leb a = true) := by
  cases a
  cases b
  simp only [DateTime.ltb, DateTime.leb, Bool.or_eq_true, Bool.and_eq_true,
    decide_eq_true_eq] at h ⊢
  omega

theorem DateTime.ltb_of_leb_of_ne {a b : DateTime} (h : a.leb b = true) (hne : a ≠ b) :
    a.ltb b = true := by
  cases a
  cases b
  simp only [DateTime.leb, DateTime.ltb, Bool.or_eq_true, Bool.and_eq_true,
    decide_eq_true_eq, ne_eq, DateTime.mk.injEq, not_and] at h hne ⊢
  omega

instance : IsTotal Post postAfter :=
  ⟨fun a b => (DateTime.leb_total b.pub_date a.pub_date).imp id id⟩

instance : IsTrans Post postAfter :=
  ⟨fun _ _ _ hab hbc => DateTime.leb_trans hbc hab⟩

/-- A filter whose lower and upper bound coincide accepts nothing. -/
theorem filter_same_bound_empty (stored : List Post) (m : DateTime) :
    (stored.filter fun p => m.ltb p.pub_date && p.pub_date.leb m) = [] := by
  rw [List.filter_eq_nil_iff]
  intro p _
  simp only [Bool.and_eq_true, not_and]
  intro h
  exact fun hle => DateTime.not_leb_of_ltb h hle

/-- The `datetime` constructor succeeds on the first of a valid month. -/
theorem datetime_first_ok (year : Int) (month : Nat)
    (hy : 1 ≤ year ∧ year ≤ 9999) (hm : 1 ≤ month ∧ month ≤ 12) :
    datetime year month 1 = .ok ⟨year, month, 1, 0, 0⟩ := by
  unfold datetime
  rw [if_neg (by omega), if_neg (by omega), if_neg]
  simp only [not_or, not_lt]
  refine ⟨by omega, ?_⟩
  unfold daysInMonth
  split
  · split <;> omega
  · split <;> omega

/-- C2: for every valid year and every stored set of posts, the December
archive (month = 12) returns an empty items list, because the date range has
end equal to start and the filter is unsatisfiable. -/
theorem archive_december_empty (stored : List Post) (year : Int) (page : Int)
    (hy : 1 ≤ year ∧ year ≤ 9999) :
    ∃ v, archive stored 12 year page = .ok v ∧
      v.pagination.items = [] ∧ v.pagination.total = 0 := by
  have hdt := datetime_first_ok year 12 hy (by omega)
  unfold archive
  rw [hdt]
  simp only [Nat.reduceBEq, if_true, beq_self_eq_true, filter_same_bound_empty]
  refine ⟨_, rfl, ?_, rfl⟩
  simp [order_by_pub_date_desc, listingView, paginate]

/-- Witness for C2 at year 2024 with a stored December post. -/
theorem archive_december_empty_witness :
    ((1 : Int) ≤ 2024 ∧ (2024 : Int) ≤ 9999) ∧
      ∃ v, archive [⟨1, "t", "b", ⟨2024, 12, 15, 10, 30⟩, none⟩] 12 2024 1 = .ok v ∧
        v.pagination.items = [] ∧ v.pagination.total = 0 :=
  ⟨by decide, archive_december_empty [⟨1, "t", "b", ⟨2024, 12, 15, 10, 30⟩, none⟩] 2024 1 (by decide)⟩

/-- C10: an archive request whose month lies outside 1..12 fails during date
construction (an unhandled `ValueError`), instead of producing a listing. -/
theorem archive_bad_month_errors (stored : List Post) (month : Nat) (year : Int) (page : Int)
    (hm : month < 1 ∨ 12 < month) :
    ∃ e, archive stored month year page = .error e := by
  unfold archive
  unfold datetime
  by_cases hy : year < 1 ∨ 9999 < year
  · rw [if_pos hy]
    exact ⟨_, rfl⟩
  · rw [if_neg hy, if_pos hm]
    exact ⟨_, rfl⟩

/-- Witness for C10 at month 13. -/
theorem archive_bad_month_errors_witness :
    ((13 : Nat) < 1 ∨ 12 < 13) ∧ ∃ e, archive [] 13 2024 1 = .error e :=
  ⟨by decide, archive_bad_month_errors [] 13 2024 1 (by decide)⟩

/-! The archive month range (claim C5). -/

/-- Every item on a page comes from the underlying query result. -/
theorem paginate_items_subset (q : List Post) (page : Int) (per_page : Nat) :
    ∀ p ∈ (paginate q page per_page).items, p ∈ q := by
  intro p hp
  simp only [paginate] at hp
  exact List.drop_subset _ _ (List.take_subset _ _ hp)

/-- Page 1 of a query that fits on one page is the whole query result. -/
theorem paginate_page_one_all (q : List Post) (per_page : Nat) (h : q.length ≤ per_page) :
    (paginate q 1 per_page).items = q := by
  simp only [paginate]
  rw [if_neg (by omega)]
  simp only [Int.toNat_one, Nat.sub_self, Nat.zero_mul, List.drop_zero]
  exact List.take_of_length_le h

/-- Evaluation of `archive` for a month in 1..11 and a valid year. -/
theorem archive_valid_eq (stored : List Post) (month : Nat) (year : Int) (page : Int)
    (hm : 1 ≤ month ∧ month ≤ 11) (hy : 1 ≤ year ∧ year ≤ 9999) :
    archive stored month year page =
      .ok (listingView (order_by_pub_date_desc (stored.filter fun p =>
            (⟨year, month, 1, 0, 0⟩ : DateTime).ltb p.pub_date &&
              p.pub_date.leb ⟨year, month + 1, 1, 0, 0⟩)) page
          (Locator.archiveUrl month year)) := by
  unfold archive
  rw [datetime_first_ok year month hy (by omega)]
  dsimp only
  rw [if_neg (show ¬((month == 12) = true) by simp only [beq_iff_eq]; omega),
    datetime_first_ok year (month + 1) hy (by omega)]

/-- Counterexample to the claim that the archive range is closed at its start:
a post published exactly at the first instant of March 2024 is excluded by the
strict `pub_date > minimum_month` filter, so the March 2024 archive over a
store holding only that post is empty. -/
theorem archive_start_boundary_counterexample :
    datetime 2024 3 1 = .ok marchStart.pub_date ∧
      archive [marchStart] 3 2024 1 =
        .ok { pagination := { page := 1, per_page := 10, total := 0, items := [] },
              next_url := none, prev_url := none } := by
  constructor
  · rfl
  · rfl

/-- C5 amended: for months 1..11 the archive filter is the half-open range
(start, end] with start the first instant of the month and end the first
instant of the following month: every listed post was published strictly
after start and at or before end (so a post published exactly at start is
excluded and one published exactly at end is included), and when at most 10
stored posts lie in that range, page 1 lists exactly the stored posts in the
range. -/
theorem archive_month_range (stored : List Post) (month : Nat) (year : Int) (page : Int)
    (hm : 1 ≤ month ∧ month ≤ 11) (hy : 1 ≤ year ∧ year ≤ 9999) :
    ∃ v : PageView, archive stored month year page = .ok v ∧
      (∀ p ∈ v.pagination.items, p ∈ stored ∧
          (⟨year, month, 1, 0, 0⟩ : DateTime).ltb p.pub_date = true ∧
          p.pub_date.leb ⟨year, month + 1, 1, 0, 0⟩ = true) ∧
      ((stored.filter fun p =>
            (⟨year, month, 1, 0, 0⟩ : DateTime).ltb p.pub_date &&
              p.pub_date.leb ⟨year, month + 1, 1, 0, 0⟩).length ≤ 10 → page = 1 →
        ∀ p ∈ stored,
          (⟨year, month, 1, 0, 0⟩ : DateTime).ltb p.pub_date = true →
          p.pub_date.leb ⟨year, month + 1, 1, 0, 0⟩ = true →
          p ∈ v.pagination.items) := by
  refine ⟨_, archive_valid_eq stored month year page hm hy, ?_, ?_⟩
  · intro p hp
    have h2 := (List.perm_insertionSort postAfter _).mem_iff.mp
      (paginate_items_subset _ page 10 p hp)
    have h3 := List.mem_filter.mp h2
    refine ⟨h3.1, ?_, ?_⟩
    · exact (Bool.and_eq_true _ _ ▸ h3.2).1
    · exact (Bool.and_eq_true _ _ ▸ h3.2).2
  · intro hlen hpage p hps hlo hhi
    subst hpage
    have hmem : p ∈ (stored.filter fun q =>
        (⟨year, month, 1, 0, 0⟩ : DateTime).ltb q.pub_date &&
          q.pub_date.leb ⟨year, month + 1, 1, 0, 0⟩) :=
      List.mem_filter.mpr ⟨hps, by rw [Bool.and_eq_true]; exact ⟨hlo, hhi⟩⟩
    have hlen2 : (order_by_pub_date_desc (stored.filter fun q =>
        (⟨year, month, 1, 0, 0⟩ : DateTime).ltb q.pub_date &&
          q.pub_date.leb ⟨year, month + 1, 1, 0, 0⟩)).length ≤ 10 := by
      rw [order_by_pub_date_desc, (List.perm_insertionSort postAfter _).length_eq]
      exact hlen
    show p ∈ (paginate (order_by_pub_date_desc _) 1 10).items
    rw [paginate_page_one_all _ 10 hlen2]
    exact (List.perm_insertionSort postAfter _).mem_iff.mpr hmem

/-- Witness for the amended C5: March 2024 over a two-post store, one post
mid-March (listed) and one published exactly at the first instant of March
(outside the half-open range). -/
theorem archive_month_range_witness :
    (((1 : Nat) ≤ 3 ∧ (3 : Nat) ≤ 11) ∧ ((1 : Int) ≤ 2024 ∧ (2024 : Int) ≤ 9999)) ∧
      ∃ v : PageView, archive marchStore 3 2024 1 = .ok v ∧
        (∀ p ∈ v.pagination.items, p ∈ marchStore ∧
            (⟨2024, 3, 1, 0, 0⟩ : DateTime).ltb p.pub_date = true ∧
            p.pub_date.leb ⟨2024, 3 + 1, 1, 0, 0⟩ = true) ∧
        ((marchStore.filter fun p =>
              (⟨2024, 3, 1, 0, 0⟩ : DateTime).ltb p.pub_date &&
                p.pub_date.leb ⟨2024, 3 + 1, 1, 0, 0⟩).length ≤ 10 → (1 : Int) = 1 →
          ∀ p ∈ marchStore,
            (⟨2024, 3, 1, 0, 0⟩ : DateTime).ltb p.pub_date = true →
            p.pub_date.leb ⟨2024, 3 + 1, 1, 0, 0⟩ = true →
            p ∈ v.pagination.items) :=
  ⟨by decide, archive_month_range marchStore 3 2024 1 (by decide) (by decide)⟩

/-! Index pagination (claims C4 and C8). -/

/-- Page 1 of the index is the first ten posts of the descending order. -/
theorem index_page_one_items (posts : List Post) :
    (index posts 1).pagination.items = (order_by_pub_date_desc posts).take 10 := by
  simp only [index, listingView, paginate]
  rw [if_neg (by omega)]
  simp only [Int.toNat_one, Nat.sub_self, Nat.zero_mul, List.drop_zero]

/-- The sorted query result is pairwise strictly descending once publish
times are pairwise distinct. -/
theorem sorted_strict_of_nodup (posts : List Post)
    (hnd : (posts.map Post.pub_date).Nodup) :
    List.Pairwise (fun a b => b.pub_date.ltb a.pub_date = true)
      (order_by_pub_date_desc posts) := by
  have hp : List.Pairwise postAfter (order_by_pub_date_desc posts) :=
    List.sorted_insertionSort postAfter posts
  have hperm : List.Perm ((order_by_pub_date_desc posts).map Post.pub_date)
      (posts.map Post.pub_date) :=
    (List.perm_insertionSort postAfter posts).map Post.pub_date
  have hnd2 : ((order_by_pub_date_desc posts).map Post.pub_date).Nodup :=
    hperm.nodup_iff.mpr hnd
  have hne : List.Pairwise (fun a b : Post => a.pub_date ≠ b.pub_date)
      (order_by_pub_date_desc posts) := List.pairwise_map.mp hnd2
  exact (hp.and hne).imp fun h =>
    DateTime.ltb_of_leb_of_ne h.1 fun heq => h.2 heq.symm

/-- C4: page 1 of the index lists the first 10 posts of the descending
publish-date order, strictly descending when publish times are pairwise
distinct, and every stored post left off page 1 is strictly older than every
listed one; a store of exactly 25 posts has page 3 carrying the remaining 5
posts with `has_next = false`; and the next/previous locators are `none`
exactly when `has_next`/`has_prev` are false. -/
theorem index_pagination (posts : List Post) (hnd : (posts.map Post.pub_date).Nodup) :
    ((index posts 1).pagination.items = (order_by_pub_date_desc posts).take 10 ∧
      List.Pairwise (fun a b => b.pub_date.ltb a.pub_date = true)
        (index posts 1).pagination.items ∧
      (∀ p ∈ posts, p ∉ (index posts 1).pagination.items →
        ∀ q ∈ (index posts 1).pagination.items, p.pub_date.ltb q.pub_date = true)) ∧
    (posts.length = 25 →
      (index posts 3).pagination.items = (order_by_pub_date_desc posts).drop 20 ∧
      (index posts 3).pagination.items.length = 5 ∧
      (index posts 3).pagination.has_next = false) ∧
    (∀ page : Int,
      ((index posts page).next_url = none ↔ (index posts page).pagination.has_next = false) ∧
      ((index posts page).prev_url = none ↔ (index posts page).pagination.has_prev = false)) := by
  have hstrict := sorted_strict_of_nodup posts hnd
  have hlen : (order_by_pub_date_desc posts).length = posts.length :=
    (List.perm_insertionSort postAfter posts).length_eq
  refine ⟨⟨index_page_one_items posts, ?_, ?_⟩, ?_, ?_⟩
  · rw [index_page_one_items posts]
    exact hstrict.sublist (List.take_sublist 10 _)
  · intro p hp hnotin q hq
    rw [index_page_one_items posts] at hnotin hq
    have hpS : p ∈ (order_by_pub_date_desc posts) :=
      (List.perm_insertionSort postAfter posts).mem_iff.mpr hp
    have hsplit := List.take_append_drop 10 (order_by_pub_date_desc posts)
    have hpdrop : p ∈ (order_by_pub_date_desc posts).drop 10 := by
      rcases List.mem_append.mp (by rw [hsplit]; exact hpS) with h | h
      · exact absurd h hnotin
      · exact h
    have hsplitp : List.Pairwise (fun a b => b.pub_date.ltb a.pub_date = true)
        ((order_by_pub_date_desc posts).take 10 ++ (order_by_pub_date_desc posts).drop 10) := by
      rw [hsplit]
      exact hstrict
    exact (List.pairwise_append.mp hsplitp).2.2 q hq p hpdrop
  · intro h25
    have hS25 : (order_by_pub_date_desc posts).length = 25 := by rw [hlen, h25]
    have hitems : (index posts 3).pagination.items =
        (order_by_pub_date_desc posts).drop 20 := by
      simp only [index, listingView, paginate]
      rw [if_neg (by omega)]
      have : ((3 : Int).toNat - 1) * 10 = 20 := by decide
      rw [this]
      exact List.take_of_length_le (by rw [List.length_drop, hS25]; omega)
    refine ⟨hitems, ?_, ?_⟩
    · rw [hitems, List.length_drop, hS25]
    · simp only [index, listingView, paginate, Pagination.has_next, Pagination.pages]
      rw [if_neg (by omega)]
      simp only [hS25, decide_eq_false_iff_not, not_lt]
      norm_num
  · intro page
    constructor
    · simp only [index, listingView]
      cases h : (paginate (order_by_pub_date_desc posts) page 10).has_next <;> simp [h]
    · simp only [index, listingView]
      cases h : (paginate (order_by_pub_date_desc posts) page 10).has_prev <;> simp [h]

/-- Witness for C4: the 25-post store with pairwise distinct publish times. -/
theorem index_pagination_witness :
    (twentyFivePosts.map Post.pub_date).Nodup ∧
      (((index twentyFivePosts 1).pagination.items =
            (order_by_pub_date_desc twentyFivePosts).take 10 ∧
          List.Pairwise (fun a b => b.pub_date.ltb a.pub_date = true)
            (index twentyFivePosts 1).pagination.items ∧
          (∀ p ∈ twentyFivePosts, p ∉ (index twentyFivePosts 1).pagination.items →
            ∀ q ∈ (index twentyFivePosts 1).pagination.items,
              p.pub_date.ltb q.pub_date = true)) ∧
        (twentyFivePosts.length = 25 →
          (index twentyFivePosts 3).pagination.items =
            (order_by_pub_date_desc twentyFivePosts).drop 20 ∧
          (index twentyFivePosts 3).pagination.items.length = 5 ∧
          (index twentyFivePosts 3).pagination.has_next = false) ∧
        (∀ page : Int,
          ((index twentyFivePosts page).next_url = none ↔
            (index twentyFivePosts page).pagination.has_next = false) ∧
          ((index twentyFivePosts page).prev_url = none ↔
            (index twentyFivePosts page).pagination.has_prev = false))) :=
  ⟨by decide, index_pagination twentyFivePosts (by decide)⟩

/-- A page number below 1 is clamped to page 1. -/
theorem paginate_clamp_low (q : List Post) (page : Int) (per_page : Nat) (h : page < 1) :
    paginate q page per_page = paginate q 1 per_page := by
  simp only [paginate]
  rw [if_pos h, if_neg (by omega)]
  rfl

/-- Counterexample to the claim that a page number at most 0 yields an empty
items list: page 0 over a two-post store returns the full first page. -/
theorem index_page_zero_counterexample :
    (index marchStore 0).pagination.items = [marchMid, marchStart] ∧
      (index marchStore 0).pagination.items ≠ [] := by
  constructor
  · rfl
  · decide

/-- C8 amended: the listing never fails: a page number below 1 is clamped to
1 and returns the first page, while a page beyond the last page yields an
empty items list with `has_next = false` and `has_prev` computed normally
from the clamped page number. -/
theorem index_page_clamp (posts : List Post) (page : Int) :
    (page < 1 → index posts page = index posts 1) ∧
    ((index posts page).pagination.pages < (index posts page).pagination.page →
      (index posts page).pagination.items = [] ∧
      (index posts page).pagination.has_next = false ∧
      (index posts page).pagination.has_prev =
        decide (1 < (index posts page).pagination.page)) := by
  constructor
  · intro h
    unfold index listingView
    rw [paginate_clamp_low _ _ _ h]
  · intro h
    simp only [index, listingView, paginate, Pagination.pages, Pagination.has_next] at h ⊢
    rw [if_neg (show ¬(10 = 0) by norm_num)] at h
    refine ⟨?_, ?_, rfl⟩
    · rw [List.drop_eq_nil_of_le, List.take_nil]
      omega
    · rw [if_neg (show ¬(10 = 0) by norm_num)]
      simp only [decide_eq_false_iff_not, not_lt]
      omega

/-- Witness for C8: page -1 clamps to page 1, and page 4 of a two-post store
is empty with `has_next = false`. -/
theorem index_page_clamp_witness :
    index marchStore (-1) = index marchStore 1 ∧
      (index marchStore 4).pagination.items = [] ∧
      (index marchStore 4).pagination.has_next = false ∧
      (index marchStore 4).pagination.has_prev =
        decide (1 < (index marchStore 4).pagination.page) :=
  ⟨(index_page_clamp marchStore (-1)).1 (by decide),
    (index_page_clamp marchStore 4).2 (by decide)⟩

/-! Credential validation (claims C1, C7, C9). -/

/-- Under unique emails, filtering by a stored user's email yields that user
alone. -/
theorem filter_email_single (users : List User) (u : User)
    (hu : (users.map User.email).Nodup) (hmem : u ∈ users) :
    users.filter (fun x => x.email == u.email) = [u] := by
  have hpw : List.Pairwise (fun a b : User => a.email ≠ b.email) users :=
    List.pairwise_map.mp hu
  induction users with
  | nil => cases hmem
  | cons v vs ih =>
    rcases List.mem_cons.mp hmem with rfl | hv
    · rw [List.filter_cons_of_pos (by simp)]
      have htail : vs.filter (fun x => x.email == u.email) = [] := by
        rw [List.filter_eq_nil_iff]
        intro b hb
        simp only [beq_iff_eq]
        exact fun hbe => (List.pairwise_cons.mp hpw).1 b hb hbe.symm
      rw [htail]
    · have hne : v.email ≠ u.email := (List.pairwise_cons.mp hpw).1 u hv
      rw [List.filter_cons_of_neg (by simp [hne])]
      exact ih (by simpa using hu.of_cons) hv (List.pairwise_cons.mp hpw).2

/-- Lookup `one_or_none` returns the unique stored user with the queried email. -/
theorem one_or_none_some (users : List User) (u : User)
    (hu : (users.map User.email).Nodup) (hmem : u ∈ users) :
    one_or_none users u.email = .ok (some u) := by
  unfold one_or_none
  rw [filter_email_single users u hu hmem]

/-- Lookup `one_or_none` returns `none` when no stored user has the queried email. -/
theorem one_or_none_none (users : List User) (email : String)
    (h : ∀ u ∈ users, u.email ≠ email) :
    one_or_none users email = .ok none := by
  unfold one_or_none
  rw [List.filter_eq_nil_iff.mpr (by intro u hm; simpa using h u hm)]

/-- Successful validation: matching email and password bind the user. -/
theorem validate_success_eq (users : List User) (u : User)
    (hu : (users.map User.email).Nodup) (hmem : u ∈ users)
    (he : pyStrip u.email ≠ "") (hp : pyStrip u.password ≠ "") :
    LoginForm.validate users u.email u.password =
      .ok ({ ok := true, user := some u, email_errors := [], password_errors := [] }, 1) := by
  unfold LoginForm.validate
  rw [if_neg (by simp [dataRequiredFails, he, hp]), one_or_none_some users u hu hmem]
  simp [User.check_password]

/-- Failed validation with non-empty fields: when no stored user matches both
the email and the password, the generic message lands on the password field
and no user is bound. -/
theorem validate_fail_eq (users : List User) (email password : String)
    (hu : (users.map User.email).Nodup)
    (he : pyStrip email ≠ "") (hp : pyStrip password ≠ "")
    (hno : ∀ u ∈ users, u.email = email → u.password ≠ password) :
    LoginForm.validate users email password =
      .ok ({ ok := false, user := none, email_errors := [],
             password_errors := ["Invalid email and/or password specified."] }, 1) := by
  unfold LoginForm.validate
  rw [if_neg (by simp [dataRequiredFails, he, hp])]
  by_cases hex : ∃ u ∈ users, u.email = email
  · obtain ⟨u, hmem, heq⟩ := hex
    subst heq
    rw [one_or_none_some users u hu hmem]
    dsimp only
    rw [show u.check_password password = false by
      simp only [User.check_password, beq_eq_false_iff_ne, ne_eq]
      exact hno u hmem rfl]
    rfl
  · push_neg at hex
    rw [one_or_none_none users email hex]

/-- C1: with non-empty fields, `validate` returns Success carrying exactly
the stored user whose email and password both match the input, and otherwise
returns Failure with the generic message appended to the password field and
no user bound. -/
theorem validate_credentials (users : List User) (email password : String)
    (hu : (users.map User.email).Nodup)
    (he : pyStrip email ≠ "") (hp : pyStrip password ≠ "") :
    (∀ u ∈ users, u.email = email → u.password = password →
      LoginForm.validate users email password =
        .ok ({ ok := true, user := some u, email_errors := [], password_errors := [] }, 1)) ∧
    ((∀ u ∈ users, u.email = email → u.password ≠ password) →
      LoginForm.validate users email password =
        .ok ({ ok := false, user := none, email_errors := [],
               password_errors := ["Invalid email and/or password specified."] }, 1)) := by
  constructor
  · intro u hmem heq hpw
    subst heq
    subst hpw
    exact validate_success_eq users u hu hmem he hp
  · intro hno
    exact validate_fail_eq users email password hu he hp hno

/-- Witness for C1 over a concrete two-user store. -/
theorem validate_credentials_witness :
    ((sampleUsers.map User.email).Nodup ∧
        pyStrip "blogger@sample.com" ≠ "" ∧ pyStrip "password" ≠ "") ∧
      ((∀ u ∈ sampleUsers, u.email = "blogger@sample.com" → u.password = "password" →
        LoginForm.validate sampleUsers "blogger@sample.com" "password" =
          .ok ({ ok := true, user := some u, email_errors := [], password_errors := [] }, 1)) ∧
      ((∀ u ∈ sampleUsers, u.email = "blogger@sample.com" → u.password ≠ "password") →
        LoginForm.validate sampleUsers "blogger@sample.com" "password" =
          .ok ({ ok := false, user := none, email_errors := [],
                 password_errors := ["Invalid email and/or password specified."] }, 1))) :=
  ⟨⟨by decide, by decide, by decide⟩,
    validate_credentials sampleUsers "blogger@sample.com" "password"
      (by decide) (by decide) (by decide)⟩

/-- C7: with an empty (or whitespace-only) email or password, `validate`
fails with only the field-required errors, performs zero persistence-layer
queries, and its result is the same for every possible store contents. -/
theorem validate_empty_fields (users : List User) (email password : String)
    (h : dataRequiredFails email = true ∨ dataRequiredFails password = true) :
    LoginForm.validate users email password =
      .ok ({ ok := false, user := none,
             email_errors := if dataRequiredFails email then ["This field is required."] else [],
             password_errors :=
               if dataRequiredFails password then ["This field is required."] else [] }, 0) ∧
    (∀ users' : List User,
      LoginForm.validate users email password = LoginForm.validate users' email password) := by
  have hcond : (dataRequiredFails email || dataRequiredFails password) = true := by
    rcases h with h | h <;> simp [h]
  constructor
  · unfold LoginForm.validate
    rw [if_pos hcond]
  · intro users'
    unfold LoginForm.validate
    rw [if_pos hcond, if_pos hcond]

/-- Witness for C7 at an empty email. -/
theorem validate_empty_fields_witness :
    (dataRequiredFails "" = true ∨ dataRequiredFails "secret" = true) ∧
      (LoginForm.validate sampleUsers "" "secret" =
        .ok ({ ok := false, user := none,
               email_errors := if dataRequiredFails "" then ["This field is required."] else [],
               password_errors :=
                 if dataRequiredFails "secret" then ["This field is required."] else [] }, 0) ∧
      (∀ users' : List User,
        LoginForm.validate sampleUsers "" "secret" = LoginForm.validate users' "" "secret")) :=
  ⟨by decide, validate_empty_fields sampleUsers "" "secret" (by decide)⟩

/-- C9: an unknown-email attempt and a known-email wrong-password attempt
produce identical Failure outcomes (same bound user, same error lists, same
query count), so the result does not disclose whether the email existed. -/
theorem validate_no_disclosure (users : List User)
    (email1 password1 password2 : String) (u2 : User)
    (hu : (users.map User.email).Nodup)
    (he1 : pyStrip email1 ≠ "") (hp1 : pyStrip password1 ≠ "")
    (he2 : pyStrip u2.email ≠ "") (hp2 : pyStrip password2 ≠ "")
    (hno1 : ∀ u ∈ users, u.email ≠ email1)
    (hmem2 : u2 ∈ users) (hwrong2 : u2.password ≠ password2) :
    LoginForm.validate users email1 password1 =
      LoginForm.validate users u2.email password2 ∧
    LoginForm.validate users email1 password1 =
      .ok ({ ok := false, user := none, email_errors := [],
             password_errors := ["Invalid email and/or password specified."] }, 1) := by
  have h1 := validate_fail_eq users email1 password1 hu he1 hp1
    (fun u hm heq => absurd heq (hno1 u hm))
  have huniq := List.inj_on_of_nodup_map hu
  have h2 := validate_fail_eq users u2.email password2 hu he2 hp2
    (fun u hm heq => by
      have : u = u2 := huniq hm hmem2 heq
      subst this
      exact hwrong2)
  exact ⟨h1.trans h2.symm, h1⟩

/-- Witness for C9: unknown email versus the seeded user with a wrong
password. -/
theorem validate_no_disclosure_witness :
    ((sampleUsers.map User.email).Nodup ∧
        pyStrip "nobody@sample.com" ≠ "" ∧ pyStrip "pw" ≠ "" ∧
        pyStrip blogger.email ≠ "" ∧ pyStrip "wrong" ≠ "" ∧
        (∀ u ∈ sampleUsers, u.email ≠ "nobody@sample.com") ∧
        blogger ∈ sampleUsers ∧ blogger.password ≠ "wrong") ∧
      (LoginForm.validate sampleUsers "nobody@sample.com" "pw" =
        LoginForm.validate sampleUsers blogger.email "wrong" ∧
      LoginForm.validate sampleUsers "nobody@sample.com" "pw" =
        .ok ({ ok := false, user := none, email_errors := [],
               password_errors := ["Invalid email and/or password specified."] }, 1)) :=
  ⟨⟨by decide, by decide, by decide, by decide, by decide, by decide, by decide, by decide⟩,
    validate_no_disclosure sampleUsers "nobody@sample.com" "pw" "wrong" blogger
      (by decide) (by decide) (by decide) (by decide) (by decide) (by decide)
      (by decide) (by decide)⟩

/-! Access gate and post-login redirect (claim C3). -/

/-- C3: on an anonymous context the `login_required` gate never runs the
wrapped operation (the result is the same for every operation) and redirects
to the login view carrying the requested destination; `logout` and `account`
are so gated; and a later successful submitted login redirects to the
carried `next` destination, or to the index when none was carried. -/
theorem guard_anonymous_redirect (ctx : RequestContext) (hanon : ctx.ident = .anonymous) :
    (∀ op₁ op₂ : RequestContext → Response,
        login_required ctx op₁ = .redirectToLogin ctx.url ∧
        login_required ctx op₁ = login_required ctx op₂) ∧
    logout ctx = .redirectToLogin ctx.url ∧
    account ctx = .redirectToLogin ctx.url ∧
    (∀ (ctx₂ : RequestContext) (users : List User) (u : User),
        (users.map User.email).Nodup → u ∈ users →
        pyStrip u.email ≠ "" → pyStrip u.password ≠ "" →
        (ctx₂.next_arg = some ctx.url → ctx.url ≠ "" →
          login ctx₂ users u.email u.password true = .ok (.redirect ctx.url)) ∧
        (ctx₂.next_arg = none →
          login ctx₂ users u.email u.password true = .ok (.redirect indexUrlStr))) := by
  have hgate : ∀ op : RequestContext → Response,
      login_required ctx op = .redirectToLogin ctx.url := by
    intro op
    unfold login_required
    rw [hanon]
  refine ⟨fun op₁ op₂ => ⟨hgate op₁, (hgate op₁).trans (hgate op₂).symm⟩,
    hgate _, hgate _, ?_⟩
  intro ctx₂ users u hu hmem he hp
  have hv := validate_success_eq users u hu hmem he hp
  constructor
  · intro hnext hne
    unfold login
    rw [hv]
    simp [pyOr, hnext, hne]
  · intro hnext
    unfold login
    rw [hv]
    simp [pyOr, hnext]

/-- Witness for C3: an anonymous request for the account page, then a login
carrying that destination with the seeded user's credentials. -/
theorem guard_anonymous_redirect_witness :
    (RequestContext.mk .anonymous "/account/" none).ident = .anonymous ∧
      ((∀ op₁ op₂ : RequestContext → Response,
          login_required ⟨.anonymous, "/account/", none⟩ op₁ =
            .redirectToLogin (RequestContext.mk .anonymous "/account/" none).url ∧
          login_required ⟨.anonymous, "/account/", none⟩ op₁ =
            login_required ⟨.anonymous, "/account/", none⟩ op₂) ∧
      logout ⟨.anonymous, "/account/", none⟩ =
        .redirectToLogin (RequestContext.mk .anonymous "/account/" none).url ∧
      account ⟨.anonymous, "/account/", none⟩ =
        .redirectToLogin (RequestContext.mk .anonymous "/account/" none).url ∧
      (∀ (ctx₂ : RequestContext) (users : List User) (u : User),
          (users.map User.email).Nodup → u ∈ users →
          pyStrip u.email ≠ "" → pyStrip u.password ≠ "" →
          (ctx₂.next_arg = some (RequestContext.mk .anonymous "/account/" none).url →
            (RequestContext.mk .anonymous "/account/" none).url ≠ "" →
            login ctx₂ users u.email u.password true =
              .ok (.redirect (RequestContext.mk .anonymous "/account/" none).url)) ∧
          (ctx₂.next_arg = none →
            login ctx₂ users u.email u.password true = .ok (.redirect indexUrlStr)))) :=
  ⟨rfl, guard_anonymous_redirect ⟨.anonymous, "/account/", none⟩ rfl⟩

/-! Bootstrap seeding (claim C6). -/

/-- C6 evaluated on an empty store: `initialize_data` persists the default
user with email `blogger@sample.com`, but the `Category(name='All')` object
is constructed without ever being added to the session, so the categories
table stays empty — no "All" category exists after seeding. -/
theorem initialize_data_no_category :
    initialize_data ⟨[], []⟩ = .ok ⟨[blogger], []⟩ ∧
      (initialize_data ⟨[], []⟩).map (fun db => db.users.map User.email) =
        .ok ["blogger@sample.com"] ∧
      (initialize_data ⟨[], []⟩).map DB.categories = .ok [] :=
  ⟨rfl, rfl, rfl⟩
